import Mathlib

/-!
Shallow embedding of `src/index.ts` of the repository
`convex-better-auth-astro`, together with theorems settling the frozen
claims about its specification.

Conventions of the embedding:
* JavaScript strings are modelled as `String` (character sequences).
* A value of type `Option String` models `string | undefined` (and
  `string | null` where the source can produce `null`).
* JavaScript truthiness on such values is `jsTruthy` (absent and the
  empty string are falsy).
* `decodeURIComponent` is a platform builtin, not code of this
  repository; it is modelled as an abstract parameter
  `dec : String → Option String` where `none` models a thrown
  `URIError` (caught by `safeDecode` in the source).
* Functions that `throw` are modelled in `Except String`, carrying the
  thrown error message.
* Outbound network effects (`fetch`, `betterFetch`, the Convex HTTP
  client) are modelled by returning a record of the call(s) that the
  source issues.
-/

namespace ConvexBetterAuthAstro

/-- Model of the external `decodeURIComponent` builtin: `none` models a
thrown `URIError`, `some s` a successful decode. -/
abbrev Decoder := String → Option String

/-- Embeds `safeDecode` (src/index.ts lines 57-63): try
`decodeURIComponent`, return the raw value when it throws. -/
def safeDecode (dec : Decoder) (value : String) : String :=
  match dec value with
  | some decoded => decoded
  | none => value

/-- Splits a character list on a separator character, keeping empty
pieces (the behaviour of splitting on a single-character pattern). -/
def splitOnCharAux (sep : Char) : List Char → List Char → List (List Char)
  | [], acc => [acc.reverse]
  | c :: cs, acc =>
    if c = sep then acc.reverse :: splitOnCharAux sep cs []
    else splitOnCharAux sep cs (c :: acc)

/-- Embeds the JavaScript `cookieHeader.split(/;\s*/)` of
src/index.ts line 78: each separator is a `;` together with the run of
whitespace that follows it.  Equivalently: split on `;`, then strip
leading whitespace from every piece after the first. -/
def splitSemiWs (s : String) : List String :=
  match splitOnCharAux ';' s.toList [] with
  | [] => []
  | first :: rest =>
    String.mk first :: rest.map (fun piece => String.mk (piece.dropWhile Char.isWhitespace))

/-- Embeds the JavaScript `.trim()` used on cookie keys: whitespace is
stripped from both ends. -/
def jsTrim (s : String) : String :=
  String.mk (((s.toList.dropWhile Char.isWhitespace).reverse.dropWhile Char.isWhitespace).reverse)

/-- Embeds the JavaScript `s.startsWith(pat)`. -/
def jsStartsWith (s pat : String) : Bool :=
  pat.toList.isPrefixOf s.toList

/-- The body of the `for` loop of `readCookieFromHeader`
(src/index.ts lines 78-92) applied to one cookie pair: `none` when the
pair is skipped (empty, or without `=`, or with a non-matching decoded
trimmed key), `some value` when the pair matches the requested name. -/
def cookiePairMatch (dec : Decoder) (name pair : String) : Option String :=
  if pair = "" then none
  else
    match pair.toList.findIdx? (fun c => c = '=') with
    | none => none
    | some i =>
      let key := safeDecode dec (jsTrim (String.mk (pair.toList.take i)))
      if key = name then some (safeDecode dec (String.mk (pair.toList.drop (i + 1))))
      else none

/-- The `for pair of cookieHeader.split(...)` loop of
`readCookieFromHeader` (src/index.ts lines 78-92), with `continue` for
empty pairs, pairs without a separator, and non-matching keys. -/
def scanPairs (dec : Decoder) (name : String) : List String → Option String
  | [] => none
  | pair :: rest =>
    if pair = "" then scanPairs dec name rest
    else
      match pair.toList.findIdx? (fun c => c = '=') with
      | none => scanPairs dec name rest
      | some i =>
        let key := safeDecode dec (jsTrim (String.mk (pair.toList.take i)))
        if key = name then some (safeDecode dec (String.mk (pair.toList.drop (i + 1))))
        else scanPairs dec name rest

/-- Embeds `readCookieFromHeader` (src/index.ts lines 71-94).  The
header argument is `string | null | undefined`; `!cookieHeader` is
falsy for `null`, `undefined` and the empty string. -/
def readCookieFromHeader (dec : Decoder) (cookieHeader : Option String) (name : String) :
    Option String :=
  match cookieHeader with
  | none => none
  | some h => if h = "" then none else scanPairs dec name (splitSemiWs h)

/-- Model of a `Headers` object, restricted to the header fields the
source reads or writes (`get("cookie")` in `readCookie`/`fetchSession`,
`set("accept-encoding", ...)` in `handler`).  `none` models an absent
header (for which `Headers.get` returns `null`). -/
structure HeadersM where
  cookie : Option String := none
  acceptEncoding : Option String := none
deriving DecidableEq

/-- Model of the parsed `new URL(request.url)` components the source
uses. -/
structure URLM where
  pathname : String
  search : String
deriving DecidableEq

/-- Model of a `Request`: the fields the source reads. -/
structure RequestM where
  url : URLM
  method : String
  headers : HeadersM
deriving DecidableEq

/-- Model of the object returned by `AstroCookies.get(name)`:
`value : some v` when the `value` property is the string `v`, `none`
when it is absent or not a string. -/
structure AstroCookieEntry where
  value : Option String

/-- Model of an `AstroCookies` store: an object with a callable `get`
(the shape tested by `isAstroCookies`, src/index.ts lines 65-69);
`get name = none` models `get` returning `undefined`. -/
structure AstroCookiesM where
  get : String → Option AstroCookieEntry

/-- Model of the `CookieSource` union (src/index.ts lines 19-25).
`ctx` models a wrapper object carrying `cookies` and/or `request`
fields; an absent or `undefined` field is modelled by the `undefined`
constructor, which is
exactly what the source's truthiness guards skip.  The field types are
full `CookieSource`s because the source recurses with the generic
`readCookie` on them. -/
inductive CookieSource where
  | undefined
  | str (header : String)
  | headers (h : HeadersM)
  | request (r : RequestM)
  | astro (c : AstroCookiesM)
  | ctx (cookies : CookieSource) (req : CookieSource)

/-- JavaScript truthiness of a `string | undefined` value: `undefined`
and the empty string are falsy. -/
def jsTruthy : Option String → Bool
  | some v => v != ""
  | none => false

/-- JavaScript truthiness of a `CookieSource` value: `undefined` and
the empty header string are falsy, every object is truthy. -/
def sourceTruthy : CookieSource → Bool
  | .undefined => false
  | .str h => h != ""
  | _ => true

/-- The Astro-cookie-store branch of `readCookie` (src/index.ts lines
109-112): call `get`, return `cookie?.value` only when it is a
string. -/
def astroCookieLookup (c : AstroCookiesM) (name : String) : Option String :=
  match c.get name with
  | some entry => entry.value
  | none => none

/-- Embeds `readCookie` (src/index.ts lines 96-133).  The branches are
taken in source order: falsy source, header string, `Headers`,
`Request` (recursing on its headers, inlined here as the `Headers`
branch body), Astro cookie store, then the wrapper's truthy `cookies`
field (kept only when its result is truthy) and finally its truthy
`request` field. -/
def readCookie (dec : Decoder) : CookieSource → String → Option String
  | .undefined, _ => none
  | .str h, name => if h = "" then none else readCookieFromHeader dec (some h) name
  | .headers h, name => readCookieFromHeader dec h.cookie name
  | .request r, name => readCookieFromHeader dec r.headers.cookie name
  | .astro c, name => astroCookieLookup c name
  | .ctx cs rq, name =>
    let fromStore := if sourceTruthy cs then readCookie dec cs name else none
    if jsTruthy fromStore then fromStore
    else if sourceTruthy rq then readCookie dec rq name
    else none

/-- Embeds the JavaScript `s.replace(pat, "")` with a string pattern:
only the first occurrence is removed. -/
def replaceFirstAux (pat : List Char) : List Char → List Char
  | [] => []
  | c :: cs =>
    if pat.isPrefixOf (c :: cs) then (c :: cs).drop pat.length
    else c :: replaceFirstAux pat cs

/-- String wrapper of `replaceFirstAux`: `sessionCookieName.replace("__Secure-", "")`
removes the first occurrence of the pattern. -/
def replaceFirst (s pat : String) : String :=
  String.mk (replaceFirstAux pat.toList s.toList)

/-- The `console.warn` message of src/index.ts lines 160-162. -/
def warnFoundInsecure (sessionCookieName insecureCookieName : String) : String :=
  s!"Looking for secure cookie {sessionCookieName} but found insecure cookie {insecureCookieName}"

/-- The `console.warn` message of src/index.ts lines 164-167. -/
def warnFoundSecure (sessionCookieName secureCookieName : String) : String :=
  s!"Looking for insecure cookie {sessionCookieName} but found secure cookie {secureCookieName}"

/-- Embeds `getToken` (src/index.ts lines 143-172).  `getCookieName`
resolves the configured session cookie name through the external
better-auth `createCookieGetter`; its result is taken here as the
parameter `sessionCookieName`.  The returned pair is the function
result together with the list of `console.warn` messages emitted. -/
def getToken (dec : Decoder) (sessionCookieName : String) (source : CookieSource) :
    Option String × List String :=
  let token := readCookie dec source sessionCookieName
  let warnings :=
    if jsTruthy token then []
    else
      let isSecure := jsStartsWith sessionCookieName "__Secure-"
      let insecureCookieName := replaceFirst sessionCookieName "__Secure-"
      let secureCookieName :=
        if isSecure then sessionCookieName else "__Secure-" ++ insecureCookieName
      let secureToken := readCookie dec source secureCookieName
      let insecureToken := readCookie dec source insecureCookieName
      (if isSecure && jsTruthy insecureToken then
        [warnFoundInsecure sessionCookieName insecureCookieName]
      else []) ++
      (if !isSecure && jsTruthy secureToken then
        [warnFoundSecure sessionCookieName secureCookieName]
      else [])
  (token, warnings)

/-- The nullish-coalescing `a ?? b` on `string | undefined` values
(used for `opts?.convexUrl ?? process.env...`): only `null`/`undefined`
falls through, the empty string does not. -/
def nullishOr (a fallback : Option String) : Option String :=
  match a with
  | some v => some v
  | none => fallback

/-- Model of a `ConvexHttpClient` instance: the constructor URL and the
token passed to `setAuth` (`none` when `setAuth` was never called). -/
structure ConvexClient where
  url : String
  auth : Option String
deriving DecidableEq

/-- Embeds `createClient` inside `setupFetchClient` (src/index.ts lines
179-190): resolve the Convex URL (`opts?.convexUrl ?? process.env.PUBLIC_CONVEX_URL`),
throw when it is falsy, build the client, and call `setAuth` with the
token exactly when `getToken` produced a truthy one. -/
def createClient (dec : Decoder) (sessionCookieName : String) (cookies : CookieSource)
    (optsConvexUrl envConvexUrl : Option String) : Except String ConvexClient :=
  match nullishOr optsConvexUrl envConvexUrl with
  | none => .error "PUBLIC_CONVEX_URL is not set"
  | some convexUrl =>
    if convexUrl = "" then .error "PUBLIC_CONVEX_URL is not set"
    else
      let token := (getToken dec sessionCookieName cookies).fst
      .ok { url := convexUrl, auth := if jsTruthy token then token else none }

/-- The kind of Convex function a fetch method issues. -/
inductive ConvexCallKind where
  | query
  | mutation
  | action
deriving DecidableEq

/-- Record of one call issued through the Convex HTTP client: the
client it was issued on (with its auth state already set) and the
function reference and arguments (kept opaque as strings). -/
structure ConvexCall where
  client : ConvexClient
  kind : ConvexCallKind
  ref : String
  args : String
deriving DecidableEq

/-- Embeds the `fetchQuery` method of the object returned by
`setupFetchClient` (src/index.ts lines 192-200): build a fresh client
via `createClient` (throwing there when the URL is missing), then issue
the query on it. -/
def fetchQuery (dec : Decoder) (sessionCookieName : String) (cookies : CookieSource)
    (optsConvexUrl envConvexUrl : Option String) (ref args : String) :
    Except String ConvexCall :=
  (createClient dec sessionCookieName cookies optsConvexUrl envConvexUrl).map
    (fun client => { client := client, kind := .query, ref := ref, args := args })

/-- Embeds the `fetchMutation` method (src/index.ts lines 201-209). -/
def fetchMutation (dec : Decoder) (sessionCookieName : String) (cookies : CookieSource)
    (optsConvexUrl envConvexUrl : Option String) (ref args : String) :
    Except String ConvexCall :=
  (createClient dec sessionCookieName cookies optsConvexUrl envConvexUrl).map
    (fun client => { client := client, kind := .mutation, ref := ref, args := args })

/-- Embeds the `fetchAction` method (src/index.ts lines 210-218). -/
def fetchAction (dec : Decoder) (sessionCookieName : String) (cookies : CookieSource)
    (optsConvexUrl envConvexUrl : Option String) (ref args : String) :
    Except String ConvexCall :=
  (createClient dec sessionCookieName cookies optsConvexUrl envConvexUrl).map
    (fun client => { client := client, kind := .action, ref := ref, args := args })

/-- The record of fetch methods returned by `setupFetchClient`. -/
structure ConvexFetchClient where
  fetchQuery : String → String → Except String ConvexCall
  fetchMutation : String → String → Except String ConvexCall
  fetchAction : String → String → Except String ConvexCall

/-- Embeds `setupFetchClient` (src/index.ts lines 174-220): it resolves
nothing eagerly and always succeeds, returning the three fetch methods;
each method runs `createClient` per call. -/
def setupFetchClient (dec : Decoder) (sessionCookieName : String) (cookies : CookieSource)
    (optsConvexUrl envConvexUrl : Option String) : ConvexFetchClient :=
  { fetchQuery := fetchQuery dec sessionCookieName cookies optsConvexUrl envConvexUrl
    fetchMutation := fetchMutation dec sessionCookieName cookies optsConvexUrl envConvexUrl
    fetchAction := fetchAction dec sessionCookieName cookies optsConvexUrl envConvexUrl }

/-- A JavaScript value that may be `undefined`, `null` or a proper
value (needed to state that `fetchSession` never yields `undefined`). -/
inductive JsNullable (α : Type) where
  | undefined
  | null
  | val (a : α)
deriving DecidableEq

/-- Record of the single `betterFetch` call issued by `fetchSession`:
path, `baseURL` option and the forwarded `cookie` header. -/
structure BetterFetchCall where
  path : String
  baseURL : String
  cookie : String
deriving DecidableEq

/-- Embeds `fetchSession` (src/index.ts lines 222-253).  The network is
the abstract parameter `net`, mapping the issued call to the `data`
field of the `betterFetch` response.  Throws on a missing request or a
falsy resolved site URL; otherwise issues exactly one call with the
incoming request's cookie header (`?? ""`) and returns the session,
with `session ?? null` collapsing `undefined` to `null`. -/
def fetchSession {α : Type} (net : BetterFetchCall → JsNullable α)
    (request : Option RequestM) (optsConvexSiteUrl envConvexSiteUrl : Option String) :
    Except String (BetterFetchCall × JsNullable α) :=
  match request with
  | none => .error "No request found"
  | some req =>
    match nullishOr optsConvexSiteUrl envConvexSiteUrl with
    | none => .error "PUBLIC_CONVEX_SITE_URL is not set"
    | some convexSiteUrl =>
      if convexSiteUrl = "" then .error "PUBLIC_CONVEX_SITE_URL is not set"
      else
        let call : BetterFetchCall :=
          { path := "/api/auth/get-session"
            baseURL := convexSiteUrl
            cookie := req.headers.cookie.getD "" }
        match net call with
        | .val s => .ok (call, .val s)
        | _ => .ok (call, .null)

/-- Record of one outbound `fetch` issued by `handler`. -/
structure FetchCall where
  url : String
  method : String
  redirect : String
  headers : HeadersM
deriving DecidableEq

/-- Embeds `handler` (src/index.ts lines 272-283): resolve the site URL
(`opts?.convexSiteUrl ?? process.env.PUBLIC_CONVEX_SITE_URL`, throwing
when falsy), build the forward URL by concatenating site URL, pathname
and query string, copy the request (headers with `accept-encoding`
overwritten) and issue one `fetch` with the original method and manual
redirect handling.  The result lists every outbound fetch issued. -/
def handler (req : RequestM) (optsConvexSiteUrl envConvexSiteUrl : Option String) :
    Except String (List FetchCall) :=
  match nullishOr optsConvexSiteUrl envConvexSiteUrl with
  | none => .error "PUBLIC_CONVEX_SITE_URL is not set"
  | some convexSiteUrl =>
    if convexSiteUrl = "" then .error "PUBLIC_CONVEX_SITE_URL is not set"
    else
      let nextUrl := convexSiteUrl ++ req.url.pathname ++ req.url.search
      .ok [{ url := nextUrl
             method := req.method
             redirect := "manual"
             headers := { req.headers with acceptEncoding := some "application/json" } }]

/-- The context handed to the handler returned by `astroHandler`. -/
structure APIContextM where
  request : RequestM

/-- Embeds `astroHandler` (src/index.ts lines 285-289): the returned
handler destructures the context and delegates to `handler`. -/
def astroHandler (optsConvexSiteUrl envConvexSiteUrl : Option String) (ctx : APIContextM) :
    Except String (List FetchCall) :=
  handler ctx.request optsConvexSiteUrl envConvexSiteUrl

/-- State-threaded wrapper of `getToken`: the mutable world visible to
a call is the console log, to which the call's warnings are appended.
Used to express statelessness across sequential calls. -/
def getTokenWithLog (dec : Decoder) (sessionCookieName : String) (source : CookieSource)
    (log : List String) : Option String × List String :=
  let r := getToken dec sessionCookieName source
  (r.fst, log ++ r.snd)

/-- A concrete decoder on which `decodeURIComponent` always throws
(every cookie text is then used raw); used to instantiate theorems at
concrete inputs. -/
def decNone : Decoder := fun _ => none

/-- A concrete decoder on which `decodeURIComponent` is the identity;
used to instantiate theorems at concrete inputs. -/
def decId : Decoder := fun s => some s

/-- C1: `readCookie` (and hence `getToken`, whose result value is the
`readCookie` lookup) normalizes the cookie source by case: a falsy
source yields `undefined`; a header string is parsed with
`readCookieFromHeader`; a `Headers` object is read through its `cookie`
header; a `Request` recurses on its headers; an Astro cookie store is
consulted through `get`, keeping the `value` only when it is a string;
a nested wrapper consults its truthy `cookies` field first (keeping a
truthy result) and then its truthy `request` field; everything else
yields `undefined`. -/
theorem C1_readCookie_normalization (dec : Decoder) (name h : String) (hdr : HeadersM)
    (r : RequestM) (c : AstroCookiesM) (cs rq : CookieSource) :
    readCookie dec .undefined name = none ∧
    readCookie dec (.str h) name = readCookieFromHeader dec (some h) name ∧
    readCookie dec (.headers hdr) name = readCookieFromHeader dec hdr.cookie name ∧
    readCookie dec (.request r) name = readCookie dec (.headers r.headers) name ∧
    readCookie dec (.astro c) name = astroCookieLookup c name ∧
    (getToken dec name cs).fst = readCookie dec cs name ∧
    readCookie dec (.ctx cs rq) name =
      (let fromStore := if sourceTruthy cs then readCookie dec cs name else none
       if jsTruthy fromStore then fromStore
       else if sourceTruthy rq then readCookie dec rq name
       else none) := by
  refine ⟨rfl, ?_, rfl, rfl, rfl, rfl, rfl⟩
  by_cases hh : h = "" <;> simp [readCookie, readCookieFromHeader, hh]

/-- C2 (counterexample): the claim asserts that when the configured
session cookie name is not found, `getToken` falls back to the
opposite-security variant's token.  At the insecure configured name
`"n"` with a source holding only the secure variant
`__Secure-n=tok`, the secure variant's token `"tok"` is present, yet
`getToken` returns `undefined` — it only emits the diagnostic
warning. -/
theorem C2_no_value_fallback_counterexample :
    readCookie decNone (.str "__Secure-n=tok") "__Secure-n" = some "tok" ∧
    (getToken decNone "n" (.str "__Secure-n=tok")).fst = none ∧
    (getToken decNone "n" (.str "__Secure-n=tok")).snd =
      ["Looking for insecure cookie n but found secure cookie __Secure-n"] := by
  decide

/-- C2 (amended): when the configured session cookie name yields no
truthy token, `getToken` looks up the opposite-security variant
(`__Secure-`-prefixed when the configured name is insecure, the name
with its first `__Secure-` occurrence removed when it is secure) and
emits a diagnostic warning when that variant is found truthy — but it
still returns the original lookup's result and never the variant's
token. -/
theorem C2_secure_insecure_warning (dec : Decoder) (scn : String) (source : CookieSource) :
    (getToken dec scn source).fst = readCookie dec source scn ∧
    (jsTruthy (readCookie dec source scn) = true → (getToken dec scn source).snd = []) ∧
    (jsTruthy (readCookie dec source scn) = false → jsStartsWith scn "__Secure-" = true →
      (getToken dec scn source).snd =
        if jsTruthy (readCookie dec source (replaceFirst scn "__Secure-")) then
          [warnFoundInsecure scn (replaceFirst scn "__Secure-")]
        else []) ∧
    (jsTruthy (readCookie dec source scn) = false → jsStartsWith scn "__Secure-" = false →
      (getToken dec scn source).snd =
        if jsTruthy (readCookie dec source ("__Secure-" ++ replaceFirst scn "__Secure-")) then
          [warnFoundSecure scn ("__Secure-" ++ replaceFirst scn "__Secure-")]
        else []) := by
  refine ⟨rfl, ?_, ?_, ?_⟩
  · intro h1
    simp [getToken, h1]
  · intro h1 h2
    by_cases h3 : jsTruthy (readCookie dec source (replaceFirst scn "__Secure-")) <;>
      simp [getToken, h1, h2, h3]
  · intro h1 h2
    by_cases h3 :
        jsTruthy (readCookie dec source ("__Secure-" ++ replaceFirst scn "__Secure-")) <;>
      simp [getToken, h1, h2, h3]

/-- C2 (witness): the amended theorem applied at the concrete insecure
name `"n"` and a source holding only the secure variant. -/
theorem C2_secure_insecure_warning_witness :
    jsTruthy (readCookie decNone (.str "__Secure-n=tok") "n") = false ∧
    jsStartsWith "n" "__Secure-" = false ∧
    (getToken decNone "n" (.str "__Secure-n=tok")).snd =
      if jsTruthy (readCookie decNone (.str "__Secure-n=tok")
          ("__Secure-" ++ replaceFirst "n" "__Secure-")) then
        [warnFoundSecure "n" ("__Secure-" ++ replaceFirst "n" "__Secure-")]
      else [] :=
  ⟨by decide, by decide,
    (C2_secure_insecure_warning decNone "n" (.str "__Secure-n=tok")).2.2.2
      (by decide) (by decide)⟩

/-- C3: when the session token cannot be located in the supplied
cookie source, `getToken` returns `undefined`; the embedding is a total
function into `Option String`, so no exception escapes cookie
extraction (the only fallible operation, `decodeURIComponent`, is
caught inside `safeDecode`). -/
theorem C3_getToken_undefined_on_miss (dec : Decoder) (scn : String) (source : CookieSource)
    (hmiss : readCookie dec source scn = none) :
    (getToken dec scn source).fst = none := by
  simpa [getToken] using hmiss

/-- C3 (witness): the theorem applied to an absent source. -/
theorem C3_getToken_undefined_on_miss_witness :
    readCookie decNone .undefined "better-auth.session-token" = none ∧
    (getToken decNone "better-auth.session-token" .undefined).fst = none :=
  ⟨rfl, C3_getToken_undefined_on_miss decNone "better-auth.session-token" .undefined rfl⟩

/-- C8: `getToken` and `readCookie` are deterministic and stateless
between calls: threading the only ambient mutable state (the console
log) through two sequential calls with the same arguments yields the
same token both times, the state is only appended to (by the call's
own warnings), and the result value is a pure function of the
arguments (it equals the `readCookie` lookup, and the source is taken
and returned unchanged by value in the embedding). -/
theorem C8_stateless_deterministic (dec : Decoder) (scn : String) (source : CookieSource)
    (log : List String) :
    (getTokenWithLog dec scn source log).fst =
      (getTokenWithLog dec scn source (getTokenWithLog dec scn source log).snd).fst ∧
    (getTokenWithLog dec scn source log).snd = log ++ (getToken dec scn source).snd ∧
    (getToken dec scn source).fst = readCookie dec source scn :=
  ⟨rfl, rfl, rfl⟩

/-- Helper: `createClient` with a resolvable nonempty Convex URL
builds the client on that URL, with `setAuth` recorded exactly for a
truthy token. -/
theorem createClient_resolved (dec : Decoder) (scn : String) (cookies : CookieSource)
    (optsUrl env : Option String) (u : String)
    (hurl : nullishOr optsUrl env = some u) (hne : u ≠ "") :
    createClient dec scn cookies optsUrl env =
      .ok { url := u
            auth := if jsTruthy (getToken dec scn cookies).fst then
                      (getToken dec scn cookies).fst
                    else none } := by
  unfold createClient
  rw [hurl]
  simp [hne]

/-- Helper: `fetchSession` with a present request and a resolvable
nonempty site URL issues the session call and collapses a missing
session to `null`. -/
theorem fetchSession_resolved {α : Type} (net : BetterFetchCall → JsNullable α)
    (req : RequestM) (optsSite env : Option String) (site : String)
    (hsite : nullishOr optsSite env = some site) (hne : site ≠ "") :
    fetchSession net (some req) optsSite env =
      .ok ({ path := "/api/auth/get-session", baseURL := site
             cookie := req.headers.cookie.getD "" },
        match net { path := "/api/auth/get-session", baseURL := site
                    cookie := req.headers.cookie.getD "" } with
        | .val s => .val s
        | _ => .null) := by
  unfold fetchSession
  rw [hsite]
  rcases hn : net { path := "/api/auth/get-session", baseURL := site
                    cookie := req.headers.cookie.getD "" } with _ | _ | s <;>
    simp [hne, hn]

/-- A concrete request used to instantiate theorems. -/
def sampleRequest : RequestM :=
  { url := { pathname := "/path", search := "?x=1" }
    method := "POST"
    headers := { cookie := some "better-auth.session-token=tok" } }

/-- A concrete handler context used to instantiate theorems. -/
def sampleCtx : APIContextM :=
  { request := sampleRequest }

/-- C4: with the opts override absent and the environment variable
unset, `fetchSession` and the handler returned by `astroHandler` throw
`PUBLIC_CONVEX_SITE_URL is not set`, and each fetch method of the
client returned by `setupFetchClient` throws
`PUBLIC_CONVEX_URL is not set`; with a present (nonempty) opts value
the result is independent of the environment variable and no error is
thrown. -/
theorem C4_missing_convex_url {α : Type} (net : BetterFetchCall → JsNullable α)
    (dec : Decoder) (scn : String) (cookies : CookieSource) (req : RequestM)
    (ctx : APIContextM) (ref args u : String) (envA envB : Option String)
    (hu : u ≠ "") :
    fetchSession net (some req) none none = .error "PUBLIC_CONVEX_SITE_URL is not set" ∧
    astroHandler none none ctx = .error "PUBLIC_CONVEX_SITE_URL is not set" ∧
    (setupFetchClient dec scn cookies none none).fetchQuery ref args =
      .error "PUBLIC_CONVEX_URL is not set" ∧
    (setupFetchClient dec scn cookies none none).fetchMutation ref args =
      .error "PUBLIC_CONVEX_URL is not set" ∧
    (setupFetchClient dec scn cookies none none).fetchAction ref args =
      .error "PUBLIC_CONVEX_URL is not set" ∧
    fetchSession net (some req) (some u) envA = fetchSession net (some req) (some u) envB ∧
    (∃ res, fetchSession net (some req) (some u) envA = .ok res) ∧
    astroHandler (some u) envA ctx = astroHandler (some u) envB ctx ∧
    (∃ calls, astroHandler (some u) envA ctx = .ok calls) ∧
    (setupFetchClient dec scn cookies (some u) envA).fetchQuery ref args =
      (setupFetchClient dec scn cookies (some u) envB).fetchQuery ref args ∧
    (∃ call, (setupFetchClient dec scn cookies (some u) envA).fetchQuery ref args = .ok call) ∧
    (∃ call, (setupFetchClient dec scn cookies (some u) envA).fetchMutation ref args = .ok call) ∧
    (∃ call, (setupFetchClient dec scn cookies (some u) envA).fetchAction ref args = .ok call) := by
  refine ⟨rfl, rfl, rfl, rfl, rfl, rfl, ?_, rfl, ?_, rfl, ?_, ?_, ?_⟩
  · exact ⟨_, fetchSession_resolved net req (some u) envA u rfl hu⟩
  · refine ⟨[{ url := u ++ ctx.request.url.pathname ++ ctx.request.url.search
               method := ctx.request.method
               redirect := "manual"
               headers := { ctx.request.headers with
                            acceptEncoding := some "application/json" } }], ?_⟩
    unfold astroHandler handler
    simp [nullishOr, hu]
  · refine ⟨{ client := { url := u
                          auth := if jsTruthy (getToken dec scn cookies).fst then
                                    (getToken dec scn cookies).fst
                                  else none }
              kind := .query, ref := ref, args := args }, ?_⟩
    show (createClient dec scn cookies (some u) envA).map _ = _
    rw [createClient_resolved dec scn cookies (some u) envA u rfl hu]
    rfl
  · refine ⟨{ client := { url := u
                          auth := if jsTruthy (getToken dec scn cookies).fst then
                                    (getToken dec scn cookies).fst
                                  else none }
              kind := .mutation, ref := ref, args := args }, ?_⟩
    show (createClient dec scn cookies (some u) envA).map _ = _
    rw [createClient_resolved dec scn cookies (some u) envA u rfl hu]
    rfl
  · refine ⟨{ client := { url := u
                          auth := if jsTruthy (getToken dec scn cookies).fst then
                                    (getToken dec scn cookies).fst
                                  else none }
              kind := .action, ref := ref, args := args }, ?_⟩
    show (createClient dec scn cookies (some u) envA).map _ = _
    rw [createClient_resolved dec scn cookies (some u) envA u rfl hu]
    rfl

/-- C4 (witness): the theorem applied at a concrete nonempty override
URL and concrete request, context and cookie source. -/
theorem C4_missing_convex_url_witness :
    ("https://site.example" : String) ≠ "" ∧
    fetchSession (fun _ => (JsNullable.null : JsNullable Nat)) (some sampleRequest) none none =
      .error "PUBLIC_CONVEX_SITE_URL is not set" ∧
    (setupFetchClient decNone "better-auth.session-token" (.str "better-auth.session-token=tok")
        none none).fetchQuery "q" "a" = .error "PUBLIC_CONVEX_URL is not set" :=
  ⟨by decide,
    (C4_missing_convex_url (fun _ => (JsNullable.null : JsNullable Nat)) decNone
      "better-auth.session-token" (.str "better-auth.session-token=tok") sampleRequest
      sampleCtx "q" "a" "https://site.example" none none (by decide)).1,
    (C4_missing_convex_url (fun _ => (JsNullable.null : JsNullable Nat)) decNone
      "better-auth.session-token" (.str "better-auth.session-token=tok") sampleRequest
      sampleCtx "q" "a" "https://site.example" none none (by decide)).2.2.1⟩

/-- C5: with a resolvable nonempty site URL, the handler returned by
`astroHandler` issues exactly one outbound fetch, to the concatenation
of the site URL with the original request's pathname and query string,
preserving the original method and using manual redirect handling. -/
theorem C5_handler_forwarding (optsSite env : Option String) (site : String)
    (ctx : APIContextM) (hsite : nullishOr optsSite env = some site) (hne : site ≠ "") :
    astroHandler optsSite env ctx =
      .ok [{ url := site ++ ctx.request.url.pathname ++ ctx.request.url.search
             method := ctx.request.method
             redirect := "manual"
             headers := { ctx.request.headers with acceptEncoding := some "application/json" } }] := by
  unfold astroHandler handler
  rw [hsite]
  simp [hne]

/-- C5 (witness): the theorem applied to a concrete POST request to
`/path?x=1` with the site URL supplied through opts. -/
theorem C5_handler_forwarding_witness :
    nullishOr (some "https://site.example") none = some "https://site.example" ∧
    ("https://site.example" : String) ≠ "" ∧
    astroHandler (some "https://site.example") none sampleCtx =
      .ok [{ url := "https://site.example" ++ sampleCtx.request.url.pathname ++
               sampleCtx.request.url.search
             method := sampleCtx.request.method
             redirect := "manual"
             headers := { sampleCtx.request.headers with
                          acceptEncoding := some "application/json" } }] :=
  ⟨rfl, by decide,
    C5_handler_forwarding (some "https://site.example") none "https://site.example"
      sampleCtx rfl (by decide)⟩

/-- C6 (counterexample): the claim asserts that whenever `getToken`
locates a session token, `setAuth` is called with exactly that token.
A source holding the configured cookie with an empty value makes
`getToken` locate the token `""` (a located token per the code's own
treatment of empty cookie values), yet the built client never receives
`setAuth`: its auth state stays unset. -/
theorem C6_empty_token_counterexample :
    (getToken decNone "n" (.str "n=")).fst = some "" ∧
    (setupFetchClient decNone "n" (.str "n=") (some "https://convex.example") none).fetchQuery
        "q" "a" =
      .ok { client := { url := "https://convex.example", auth := none }
            kind := .query, ref := "q", args := "a" } :=
  ⟨by decide, rfl⟩

/-- C6 (amended): every fetch method of the client returned by
`setupFetchClient` builds a fresh Convex HTTP client; when `getToken`
locates a nonempty session token, `setAuth` is called with exactly
that token before the query/mutation/action is issued, and when no
token is located — or the located token is the empty string — `setAuth`
is never called. -/
theorem C6_setAuth_token (dec : Decoder) (scn : String) (cookies : CookieSource)
    (optsUrl env : Option String) (ref args u : String)
    (hurl : nullishOr optsUrl env = some u) (hne : u ≠ "") :
    (∀ t, (getToken dec scn cookies).fst = some t → t ≠ "" →
      (setupFetchClient dec scn cookies optsUrl env).fetchQuery ref args =
        .ok { client := { url := u, auth := some t }, kind := .query, ref := ref, args := args } ∧
      (setupFetchClient dec scn cookies optsUrl env).fetchMutation ref args =
        .ok { client := { url := u, auth := some t }, kind := .mutation, ref := ref, args := args } ∧
      (setupFetchClient dec scn cookies optsUrl env).fetchAction ref args =
        .ok { client := { url := u, auth := some t }, kind := .action, ref := ref, args := args }) ∧
    ((getToken dec scn cookies).fst = none ∨ (getToken dec scn cookies).fst = some "" →
      (setupFetchClient dec scn cookies optsUrl env).fetchQuery ref args =
        .ok { client := { url := u, auth := none }, kind := .query, ref := ref, args := args } ∧
      (setupFetchClient dec scn cookies optsUrl env).fetchMutation ref args =
        .ok { client := { url := u, auth := none }, kind := .mutation, ref := ref, args := args } ∧
      (setupFetchClient dec scn cookies optsUrl env).fetchAction ref args =
        .ok { client := { url := u, auth := none }, kind := .action, ref := ref, args := args }) := by
  have hc := createClient_resolved dec scn cookies optsUrl env u hurl hne
  constructor
  · intro t ht hte
    have htr : jsTruthy (getToken dec scn cookies).fst = true := by
      rw [ht]; simp [jsTruthy, hte]
    refine ⟨?_, ?_, ?_⟩ <;>
      · show (createClient dec scn cookies optsUrl env).map _ = _
        rw [hc, htr, ht]
        rfl
  · intro habs
    have hfa : jsTruthy (getToken dec scn cookies).fst = false := by
      rcases habs with hn | he
      · rw [hn]; rfl
      · rw [he]; rfl
    refine ⟨?_, ?_, ?_⟩ <;>
      · show (createClient dec scn cookies optsUrl env).map _ = _
        rw [hc, hfa]
        rfl

/-- C6 (witness): the amended theorem applied at a nonempty located
token held in a concrete header-string source. -/
theorem C6_setAuth_token_witness :
    nullishOr (some "https://convex.example") none = some "https://convex.example" ∧
    ("https://convex.example" : String) ≠ "" ∧
    (getToken decNone "n" (.str "n=tok")).fst = some "tok" ∧
    ("tok" : String) ≠ "" ∧
    (setupFetchClient decNone "n" (.str "n=tok") (some "https://convex.example") none).fetchQuery
        "q" "a" =
      .ok { client := { url := "https://convex.example", auth := some "tok" }
            kind := .query, ref := "q", args := "a" } :=
  ⟨rfl, by decide, by decide, by decide,
    ((C6_setAuth_token decNone "n" (.str "n=tok") (some "https://convex.example") none
        "q" "a" "https://convex.example" rfl (by decide)).1
      "tok" (by decide) (by decide)).1⟩

/-- C7: with a present request and a resolvable nonempty Convex site
URL, `fetchSession` issues one request to the `/api/auth/get-session`
path of that site URL, forwards the incoming request's cookie header
verbatim (the empty string when absent), and returns a session that is
never `undefined`: it is the endpoint's session value exactly when one
is returned, and `null` otherwise. -/
theorem C7_fetchSession_forwarding {α : Type} (net : BetterFetchCall → JsNullable α)
    (req : RequestM) (optsSite env : Option String) (site : String)
    (hsite : nullishOr optsSite env = some site) (hne : site ≠ "") :
    ∃ sess : JsNullable α,
      fetchSession net (some req) optsSite env =
        .ok ({ path := "/api/auth/get-session", baseURL := site
               cookie := req.headers.cookie.getD "" }, sess) ∧
      sess ≠ .undefined ∧
      (∀ x, sess = .val x ↔
        net { path := "/api/auth/get-session", baseURL := site
              cookie := req.headers.cookie.getD "" } = .val x) := by
  have hr := fetchSession_resolved net req optsSite env site hsite hne
  rcases hn : net { path := "/api/auth/get-session", baseURL := site
                    cookie := req.headers.cookie.getD "" } with _ | _ | s
  · rw [hn] at hr
    exact ⟨.null, hr, by simp, fun x => by simp⟩
  · rw [hn] at hr
    exact ⟨.null, hr, by simp, fun x => by simp⟩
  · rw [hn] at hr
    exact ⟨.val s, hr, by simp, fun x => by simp⟩

/-- C7 (witness): the theorem applied at a concrete request carrying a
cookie header and a network returning a session value. -/
theorem C7_fetchSession_forwarding_witness :
    nullishOr (some "https://site.example") none = some "https://site.example" ∧
    ("https://site.example" : String) ≠ "" ∧
    ∃ sess : JsNullable Nat,
      fetchSession (fun _ => JsNullable.val 42) (some sampleRequest)
          (some "https://site.example") none =
        .ok ({ path := "/api/auth/get-session", baseURL := "https://site.example"
               cookie := sampleRequest.headers.cookie.getD "" }, sess) ∧
      sess ≠ .undefined ∧
      (∀ x, sess = .val x ↔
        (fun (_ : BetterFetchCall) => JsNullable.val 42)
            { path := "/api/auth/get-session", baseURL := "https://site.example"
              cookie := sampleRequest.headers.cookie.getD "" } = .val x) :=
  ⟨rfl, by decide,
    C7_fetchSession_forwarding (fun _ => JsNullable.val 42) sampleRequest
      (some "https://site.example") none "https://site.example" rfl (by decide)⟩

/-- Helper: the explicit scanning loop of `readCookieFromHeader`
computes the first match over the split pairs. -/
theorem scanPairs_eq_findSomeMatch (dec : Decoder) (name : String) (ps : List String) :
    scanPairs dec name ps = ps.findSome? (cookiePairMatch dec name) := by
  induction ps with
  | nil => rfl
  | cons pair rest ih =>
    rw [List.findSome?_cons]
    unfold scanPairs cookiePairMatch
    by_cases hp : pair = ""
    · rw [if_pos hp, if_pos hp]
      exact ih
    · rw [if_neg hp, if_neg hp]
      cases pair.toList.findIdx? (fun c => c = '=') with
      | none => exact ih
      | some i =>
        dsimp only
        by_cases hkey : safeDecode dec (jsTrim (String.mk (pair.toList.take i))) = name
        · rw [if_pos hkey, if_pos hkey]
        · rw [if_neg hkey, if_neg hkey]
          exact ih

/-- C9: cookie-header parsing is total — `safeDecode` returns the raw
string whenever `decodeURIComponent` throws, so the scan never
propagates an exception — and the scan skips empty pairs and pairs
without a `=` separator while returning the first pair whose decoded,
trimmed key equals the requested name. -/
theorem C9_header_scan_total (dec : Decoder) (name h v : String) (ps : List String)
    (hv : dec v = none) :
    safeDecode dec v = v ∧
    scanPairs dec name ps = ps.findSome? (cookiePairMatch dec name) ∧
    cookiePairMatch dec name "" = none ∧
    (∀ pair : String, pair.toList.findIdx? (fun c => c = '=') = none →
      cookiePairMatch dec name pair = none) ∧
    readCookieFromHeader dec none name = none ∧
    readCookieFromHeader dec (some h) name =
      (if h = "" then none else (splitSemiWs h).findSome? (cookiePairMatch dec name)) := by
  refine ⟨?_, scanPairs_eq_findSomeMatch dec name ps, rfl, ?_, rfl, ?_⟩
  · simp [safeDecode, hv]
  · intro pair hidx
    have hidx2 : pair.data.findIdx? (fun c => c = '=') = none := hidx
    by_cases hp : pair = "" <;> simp [cookiePairMatch, hp, hidx, hidx2]
  · by_cases hh : h = "" <;>
      simp [readCookieFromHeader, hh, scanPairs_eq_findSomeMatch]

/-- C9 (witness): the theorem applied to a malformed percent-encoded
value on which the decoder throws, a concrete header and pair list. -/
theorem C9_header_scan_total_witness :
    decNone "%ZZ" = none ∧
    safeDecode decNone "%ZZ" = "%ZZ" ∧
    readCookieFromHeader decNone (some "x; a=%ZZ") "a" =
      (if ("x; a=%ZZ" : String) = "" then none
       else (splitSemiWs "x; a=%ZZ").findSome? (cookiePairMatch decNone "a")) :=
  ⟨rfl,
    (C9_header_scan_total decNone "a" "x; a=%ZZ" "%ZZ" ["a=%ZZ"] rfl).1,
    (C9_header_scan_total decNone "a" "x; a=%ZZ" "%ZZ" ["a=%ZZ"] rfl).2.2.2.2.2⟩

/-- C10: in a wrapper context carrying both a cookie store and a
request, a falsy store result (absent or the empty string) falls
through to the wrapped request while a truthy store result is
returned; by contrast, a header string containing `name=` with an
empty value yields the empty string directly, so `getToken` can return
the empty string rather than `undefined`. -/
theorem C10_store_first_then_request (dec : Decoder) (name : String)
    (c chit : AstroCookiesM) (r : RequestM) (v : String)
    (hmiss : jsTruthy (astroCookieLookup c name) = false)
    (hhit : astroCookieLookup chit name = some v) (hv : v ≠ "") :
    readCookie dec (.ctx (.astro c) (.request r)) name = readCookie dec (.request r) name ∧
    readCookie dec (.ctx (.astro chit) (.request r)) name = some v ∧
    readCookie decId (.str "better-auth.session-token=") "better-auth.session-token" =
      some "" ∧
    (getToken decId "better-auth.session-token" (.str "better-auth.session-token=")).fst =
      some "" := by
  refine ⟨?_, ?_, by decide, by decide⟩
  · simp [readCookie, sourceTruthy, hmiss]
  · simp [readCookie, sourceTruthy, hhit, jsTruthy, hv]

/-- C10 (witness): the theorem applied to a concrete empty store, a
concrete store holding `astro-token`, and a concrete request. -/
theorem C10_store_first_then_request_witness :
    jsTruthy (astroCookieLookup ⟨fun _ => none⟩ "better-auth.session-token") = false ∧
    astroCookieLookup ⟨fun _ => some ⟨some "astro-token"⟩⟩ "better-auth.session-token" =
      some "astro-token" ∧
    ("astro-token" : String) ≠ "" ∧
    readCookie decNone
        (.ctx (.astro ⟨fun _ => none⟩) (.request sampleRequest)) "better-auth.session-token" =
      readCookie decNone (.request sampleRequest) "better-auth.session-token" ∧
    readCookie decNone
        (.ctx (.astro ⟨fun _ => some ⟨some "astro-token"⟩⟩) (.request sampleRequest))
        "better-auth.session-token" =
      some "astro-token" :=
  ⟨rfl, rfl, by decide,
    (C10_store_first_then_request decNone "better-auth.session-token" ⟨fun _ => none⟩
      ⟨fun _ => some ⟨some "astro-token"⟩⟩ sampleRequest "astro-token" rfl rfl (by decide)).1,
    (C10_store_first_then_request decNone "better-auth.session-token" ⟨fun _ => none⟩
      ⟨fun _ => some ⟨some "astro-token"⟩⟩ sampleRequest "astro-token" rfl rfl (by decide)).2.1⟩

end ConvexBetterAuthAstro
